import Mathlib

/-!
Verification development for the tenma-serial DC power-supply driver
(`tenma/devices/serial_handler.py`, `tenma/devices/tenma_72_base.py`,
`tenma/devices/tenma_72_devices.py`, `tenma/tenmaDcLib.py`).

Embedding conventions:

* Python numbers (ints and floats) are modelled by `PyFloat`, an exact
  unnormalized rational (integer numerator and positive integer
  denominator).  Python's `int(x)` (truncation toward zero) is `pyInt`;
  the `"{:.2f}"` / `"{:.3f}"` format specifiers are `formatFixed 2` /
  `formatFixed 3` (round half to even on the exact decimal value);
  `float(s)` string parsing is `parseRat?` (plain decimal literals, which
  is all the protocol produces).  The rounding noise of CPython's IEEE-754
  doubles is idealised away: arithmetic is exact.
* Exceptions are modelled by `TenmaError`.  The Python code raises a single
  `TenmaException` type at every validation and verification site; following
  the specification's taxonomy each raise site is tagged by its role:
  range/validation raises become `rangeError`, the post-set read-back
  mismatch becomes `verificationError`.  `NotImplementedError` raises become
  `notImplementedError`.  Unguarded Python failures are `valueError`
  (`float()` on an unparsable string) and `indexError` (`list[0]` on an
  empty list).  Exception message strings carry no control flow and are
  elided.
* The serial transport (`TenmaSerialHandler`) is a recording fake: a
  `Device σ` is the far side of the wire (state `σ`, a reply string per
  command) and `TState σ` holds the device state, the ordered trace of
  commands written, and the receive buffer.  `_sendCommand` appends the
  configured end-of-line terminator uniformly to every write; the trace
  records commands without the terminator, which does not affect command
  identity or order.  `_readBytes` / `_readOutput` drain whatever is
  currently buffered.
-/

/-- Decidable equality of `Except` results (not provided by the library
here); needed to evaluate driver runs on concrete inputs. -/
instance {ε α : Type} [DecidableEq ε] [DecidableEq α] :
    DecidableEq (Except ε α) := fun x y =>
  match x, y with
  | .ok a, .ok b =>
      if h : a = b then .isTrue (by rw [h]) else .isFalse (by simp [h])
  | .ok _, .error _ => .isFalse (by simp)
  | .error _, .ok _ => .isFalse (by simp)
  | .error e, .error f =>
      if h : e = f then .isTrue (by rw [h]) else .isFalse (by simp [h])

namespace TenmaSerial

/-- Exception outcomes of a driver operation (see header note). -/
inductive TenmaError where
  | rangeError
  | verificationError
  | notImplementedError
  | valueError
  | indexError
deriving DecidableEq

/-- An exact Python number (int or float): an unnormalized fraction.
Every value built by the driver has a positive denominator (`ofInt`,
the parser and the arithmetic below preserve this). -/
structure PyFloat where
  num : ℤ
  den : ℤ
deriving DecidableEq

namespace PyFloat

/-- A Python integer as a number. -/
def ofInt (n : ℤ) : PyFloat := ⟨n, 1⟩

/-- Negation. -/
def neg (a : PyFloat) : PyFloat := ⟨-a.num, a.den⟩

/-- Addition. -/
def add (a b : PyFloat) : PyFloat := ⟨a.num * b.den + b.num * a.den, a.den * b.den⟩

/-- Multiplication. -/
def mul (a b : PyFloat) : PyFloat := ⟨a.num * b.num, a.den * b.den⟩

/-- Division by a positive integer constant (the driver only divides by
1000 and by powers of ten). -/
def divInt (a : PyFloat) (k : ℤ) : PyFloat := ⟨a.num, a.den * k⟩

/-- Python `<` on numbers (cross multiplication; exact for positive
denominators). -/
def Lt (a b : PyFloat) : Prop := a.num * b.den < b.num * a.den

instance (a b : PyFloat) : Decidable (Lt a b) :=
  inferInstanceAs (Decidable (_ < _))

/-- Python `==` on numbers. -/
def PEq (a b : PyFloat) : Prop := a.num * b.den = b.num * a.den

instance (a b : PyFloat) : Decidable (PEq a b) :=
  inferInstanceAs (Decidable (_ = _))

/-- Mathematical floor (used by round-half-even). -/
def floor (a : PyFloat) : ℤ := a.num.fdiv a.den

end PyFloat

/-- Python `int(x)`: truncation toward zero. -/
def pyInt (a : PyFloat) : ℤ := a.num.tdiv a.den

/-- Round to the nearest integer, ties to even — the rounding used by
Python's fixed-point float formatting, applied here to the exact value. -/
def roundHalfEven (a : PyFloat) : ℤ :=
  let f := a.floor
  let r := a.num - f * a.den
  if 2 * r < a.den then f
  else if 2 * r > a.den then f + 1
  else if f % 2 = 0 then f else f + 1

/-- Decimal digits of a natural number, most significant first. -/
def natDigits (n : ℕ) : List Char := Nat.toDigits 10 n

/-- Left-pad a digit list with `'0'` to width `d`. -/
def padZeros (d : ℕ) (s : List Char) : List Char :=
  List.replicate (d - s.length) '0' ++ s

/-- Python `"{:.Nf}".format(q)`: fixed-point rendering with `decimals`
fractional digits, rounding half to even. -/
def formatFixed (decimals : ℕ) (q : PyFloat) : String :=
  let scaled := roundHalfEven (q.mul (.ofInt (10 ^ decimals)))
  let sign := if scaled < 0 then "-" else ""
  let n := scaled.natAbs
  let ip := n / 10 ^ decimals
  let fp := n % 10 ^ decimals
  sign ++ String.mk (natDigits ip) ++ "." ++ String.mk (padZeros decimals (natDigits fp))

/-- Numeric value of a decimal digit list (assumed all digits). -/
def digitsToNat (l : List Char) : ℕ :=
  l.foldl (fun a c => a * 10 + (c.toNat - 48)) 0

/-- Python `float(s)` restricted to the plain decimal literals the protocol
produces: optional sign, integer digits, optional fractional digits.
`none` models the `ValueError` raise of `float()`. -/
def parseRat? (s : String) : Option PyFloat :=
  let l₀ := s.toList
  let l := match l₀ with
    | '-' :: r => r
    | '+' :: r => r
    | _ => l₀
  let sgn : Bool := match l₀ with
    | '-' :: _ => true
    | _ => false
  let ip := l.takeWhile (fun c => c ≠ '.')
  let withSign (v : PyFloat) : PyFloat := if sgn then v.neg else v
  match l.dropWhile (fun c => c ≠ '.') with
  | [] =>
      if ip ≠ [] ∧ ip.all Char.isDigit then
        some (withSign (.ofInt (digitsToNat ip)))
      else none
  | '.' :: fp =>
      if (ip ≠ [] ∨ fp ≠ []) ∧ ip.all Char.isDigit ∧ fp.all Char.isDigit then
        some (withSign ((PyFloat.ofInt (digitsToNat ip)).add
          ⟨digitsToNat fp, 10 ^ fp.length⟩))
      else none
  | _ => none

/-! ## Transport (`TenmaSerialHandler` with a recording fake device) -/

/-- The far side of the serial line: from a device state and the command
just written, the next device state and the reply placed on the wire. -/
structure Device (σ : Type) where
  step : σ → String → σ × String

/-- Transport state: device state, ordered trace of commands written, and
the receive buffer (`ser.in_waiting` bytes, as a string). -/
structure TState (σ : Type) where
  devState : σ
  trace : List String
  buffer : String
deriving DecidableEq

/-- Result of a driver operation: an exception or a value, plus the
transport state reached (the trace survives an exception). -/
abbrev DriverRes (σ : Type) (α : Type) := Except TenmaError α × TState σ

/-- Embedding of `TenmaSerialHandler._sendCommand`: write the command (the EOL terminator
is appended uniformly on the wire and not recorded), let the device react,
and append its reply to the receive buffer. -/
def sendCommand (dev : Device σ) (cmd : String) (st : TState σ) : TState σ :=
  let r := dev.step st.devState cmd
  ⟨r.1, st.trace ++ [cmd], st.buffer ++ r.2⟩

/-- Embedding of `TenmaSerialHandler._readOutput`: drain the buffer as a string. -/
def readOutput (st : TState σ) : String × TState σ :=
  (st.buffer, ⟨st.devState, st.trace, ""⟩)

/-- Embedding of `TenmaSerialHandler._readBytes`: drain the buffer as a list of byte
values. -/
def readBytes (st : TState σ) : List ℕ × TState σ :=
  (st.buffer.toList.map Char.toNat, ⟨st.devState, st.trace, ""⟩)

/-! ## Model descriptors

Per-model class constants.  `Tenma72Base` carries the generic defaults;
the subclasses in `tenma_72_devices.py` override them. -/

/-- The class constants `NCHANNELS`, `NCONFS`, `MAX_MA`, `MAX_MV`. -/
structure ModelDesc where
  NCHANNELS : ℤ
  NCONFS : ℤ
  MAX_MA : ℤ
  MAX_MV : ℤ
deriving DecidableEq

/-- Defaults of the generic base class (a 72-2540-like single channel). -/
def Tenma72Base : ModelDesc := ⟨1, 5, 5000, 30000⟩

/-- Embedding of `Tenma72_2540`. -/
def Tenma72_2540 : ModelDesc := ⟨1, 5, 5100, 31000⟩

/-- Embedding of `Tenma72_2535`. -/
def Tenma72_2535 : ModelDesc := ⟨1, 5, 3000, 30000⟩

/-- Embedding of `Tenma72_2545` (the resolver's fallback model). -/
def Tenma72_2545 : ModelDesc := ⟨1, 5, 2000, 60000⟩

/-- Embedding of `Tenma72_2550` (also Korad KA 6003P). -/
def Tenma72_2550 : ModelDesc := ⟨1, 5, 3000, 60000⟩

/-- Embedding of `Tenma72_2930`. -/
def Tenma72_2930 : ModelDesc := ⟨1, 5, 10000, 30000⟩

/-- Embedding of `Tenma72_2705`. -/
def Tenma72_2705 : ModelDesc := ⟨1, 5, 3100, 31000⟩

/-- Embedding of `Tenma72_2940`. -/
def Tenma72_2940 : ModelDesc := ⟨1, 5, 5000, 60000⟩

/-- Embedding of `Tenma72_13320`: three channels, no front-panel memory slots. -/
def Tenma72_13320 : ModelDesc := ⟨3, 0, 3000, 30000⟩

/-- Embedding of `Tenma72_13330`: three channels, no front-panel memory slots. -/
def Tenma72_13330 : ModelDesc := ⟨3, 0, 5000, 30000⟩

/-! ## Protocol driver: the `Tenma72Base` operations

Each Python method is a function of the model descriptor, the device on
the far side of the wire, the method arguments and the transport state. -/

/-- Embedding of `Tenma72Base.checkChannel`. -/
def checkChannel (m : ModelDesc) (channel : ℤ) : Except TenmaError Unit :=
  if channel > m.NCHANNELS ∨ channel < 1 then .error .rangeError else .ok ()

/-- Embedding of `Tenma72Base.checkVoltage` (the comparison is on `int(mV)`). -/
def checkVoltage (m : ModelDesc) (mV : PyFloat) : Except TenmaError Unit :=
  if pyInt mV > m.MAX_MV ∨ pyInt mV < 0 then .error .rangeError else .ok ()

/-- Embedding of `Tenma72Base.checkCurrent` (the comparison is on `int(mA)`). -/
def checkCurrent (m : ModelDesc) (mA : PyFloat) : Except TenmaError Unit :=
  if pyInt mA > m.MAX_MA ∨ pyInt mA < 0 then .error .rangeError else .ok ()

/-- Embedding of `Tenma72Base.checkConf`. -/
def checkConf (m : ModelDesc) (conf : ℤ) : Except TenmaError Unit :=
  if conf > m.NCONFS ∨ conf < 1 then .error .rangeError else .ok ()

/-- Embedding of `Tenma72Base.readVoltage`: validate the channel, query `VSET{ch}?` and
parse the reply as a float. -/
def readVoltage (m : ModelDesc) (dev : Device σ) (channel : ℤ) (st : TState σ) :
    DriverRes σ PyFloat :=
  match checkChannel m channel with
  | .error e => (.error e, st)
  | .ok _ =>
    let st := sendCommand dev ("VSET" ++ toString channel ++ "?") st
    let r := readOutput st
    match parseRat? r.1 with
    | none => (.error .valueError, r.2)
    | some q => (.ok q, r.2)

/-- Embedding of `Tenma72Base.readCurrent`: validate the channel, query `ISET{ch}?` and
parse the first five characters of the reply (the 72-2550 appends a stray
sixth byte from `*IDN?` due to a firmware bug). -/
def readCurrent (m : ModelDesc) (dev : Device σ) (channel : ℤ) (st : TState σ) :
    DriverRes σ PyFloat :=
  match checkChannel m channel with
  | .error e => (.error e, st)
  | .ok _ =>
    let st := sendCommand dev ("ISET" ++ toString channel ++ "?") st
    let r := readOutput st
    match parseRat? (r.1.take 5) with
    | none => (.error .valueError, r.2)
    | some q => (.ok q, r.2)

/-- Embedding of `Tenma72Base.setVoltage`: validate channel and magnitude, send
`VSET{ch}:{volts:.2f}`, read the value back and fail with a verification
error when `int(readVolts * 1000) != int(mV)`. -/
def setVoltage (m : ModelDesc) (dev : Device σ) (channel : ℤ) (mV : PyFloat)
    (st : TState σ) : DriverRes σ PyFloat :=
  match checkChannel m channel with
  | .error e => (.error e, st)
  | .ok _ =>
  match checkVoltage m mV with
  | .error e => (.error e, st)
  | .ok _ =>
    let volts := mV.divInt 1000
    let st := sendCommand dev ("VSET" ++ toString channel ++ ":" ++ formatFixed 2 volts) st
    match readVoltage m dev channel st with
    | (.error e, st) => (.error e, st)
    | (.ok readVolts, st) =>
      let readMillivolts := pyInt (readVolts.mul (.ofInt 1000))
      if readMillivolts ≠ pyInt mV then (.error .verificationError, st)
      else (.ok readVolts, st)

/-- Embedding of `Tenma72Base.setCurrent`: validate channel and magnitude, send
`ISET{ch}:{amperes:.3f}`, read the value back and fail with a verification
error when `int(readcurrent * 1000) != mA` (note: the raw `mA`, not
`int(mA)`). -/
def setCurrent (m : ModelDesc) (dev : Device σ) (channel : ℤ) (mA : PyFloat)
    (st : TState σ) : DriverRes σ PyFloat :=
  match checkChannel m channel with
  | .error e => (.error e, st)
  | .ok _ =>
  match checkCurrent m mA with
  | .error e => (.error e, st)
  | .ok _ =>
    let amperes := mA.divInt 1000
    let st := sendCommand dev ("ISET" ++ toString channel ++ ":" ++ formatFixed 3 amperes) st
    match readCurrent m dev channel st with
    | (.error e, st) => (.error e, st)
    | (.ok readcurrent, st) =>
      let readMilliamps := pyInt (readcurrent.mul (.ofInt 1000))
      if ¬ PyFloat.PEq (.ofInt readMilliamps) mA then (.error .verificationError, st)
      else (.ok readcurrent, st)

/-- Embedding of `Tenma72Base.runningVoltage`: `VOUT{ch}?`. -/
def runningVoltage (m : ModelDesc) (dev : Device σ) (channel : ℤ) (st : TState σ) :
    DriverRes σ PyFloat :=
  match checkChannel m channel with
  | .error e => (.error e, st)
  | .ok _ =>
    let st := sendCommand dev ("VOUT" ++ toString channel ++ "?") st
    let r := readOutput st
    match parseRat? r.1 with
    | none => (.error .valueError, r.2)
    | some q => (.ok q, r.2)

/-- Embedding of `Tenma72Base.runningCurrent`: `IOUT{ch}?`. -/
def runningCurrent (m : ModelDesc) (dev : Device σ) (channel : ℤ) (st : TState σ) :
    DriverRes σ PyFloat :=
  match checkChannel m channel with
  | .error e => (.error e, st)
  | .ok _ =>
    let st := sendCommand dev ("IOUT" ++ toString channel ++ "?") st
    let r := readOutput st
    match parseRat? r.1 with
    | none => (.error .valueError, r.2)
    | some q => (.ok q, r.2)

/-- Embedding of `Tenma72Base.ON`. -/
def powerON (dev : Device σ) (st : TState σ) : TState σ :=
  sendCommand dev "OUT1" st

/-- Embedding of `Tenma72Base.OFF`. -/
def powerOFF (dev : Device σ) (st : TState σ) : TState σ :=
  sendCommand dev "OUT0" st

/-- Embedding of `Tenma72Base.saveConf`: validate the slot and send `SAV{conf}`. -/
def saveConf (m : ModelDesc) (dev : Device σ) (conf : ℤ) (st : TState σ) :
    DriverRes σ Unit :=
  match checkConf m conf with
  | .error e => (.error e, st)
  | .ok _ => (.ok (), sendCommand dev ("SAV" ++ toString conf) st)

/-- Embedding of `Tenma72Base.recallConf`: validate the slot and send `RCL{conf}`. -/
def recallConf (m : ModelDesc) (dev : Device σ) (conf : ℤ) (st : TState σ) :
    DriverRes σ Unit :=
  match checkConf m conf with
  | .error e => (.error e, st)
  | .ok _ => (.ok (), sendCommand dev ("RCL" ++ toString conf) st)

/-- Embedding of `Tenma72Base.setOCP`: fire-and-forget `OCP{0,1}`. -/
def setOCP (dev : Device σ) (enable : Bool) (st : TState σ) : TState σ :=
  sendCommand dev ("OCP" ++ (if enable then "1" else "0")) st

/-- Embedding of `Tenma72Base.setOVP`: fire-and-forget `OVP{0,1}`. -/
def setOVP (dev : Device σ) (enable : Bool) (st : TState σ) : TState σ :=
  sendCommand dev ("OVP" ++ (if enable then "1" else "0")) st

/-- Embedding of `Tenma72Base.saveConfFlow`: validate the slot, turn the output off, read
the live voltage and current, recall the slot, re-apply the read values
(each `set` performs its own verification read-back) and save.  Note that
the channel argument is validated only inside `readVoltage`, after `OUT0`
has already been written. -/
def saveConfFlow (m : ModelDesc) (dev : Device σ) (conf channel : ℤ)
    (st : TState σ) : DriverRes σ Unit :=
  match checkConf m conf with
  | .error e => (.error e, st)
  | .ok _ =>
    let st := powerOFF dev st
    match readVoltage m dev channel st with
    | (.error e, st) => (.error e, st)
    | (.ok volt, st) =>
    match readCurrent m dev channel st with
    | (.error e, st) => (.error e, st)
    | (.ok curr, st) =>
    match recallConf m dev conf st with
    | (.error e, st) => (.error e, st)
    | (.ok _, st) =>
    match setVoltage m dev channel (volt.mul (.ofInt 1000)) st with
    | (.error e, st) => (.error e, st)
    | (.ok _, st) =>
    match setCurrent m dev channel (curr.mul (.ofInt 1000)) st with
    | (.error e, st) => (.error e, st)
    | (.ok _, st) => saveConf m dev conf st

/-! ## Status decoding -/

/-- The dictionary returned by `Tenma72Base.getStatus`. -/
structure Status72 where
  ch1Mode : String
  ch2Mode : String
  tracking : String
  beepEnabled : Bool
  lockEnabled : Bool
  outEnabled : Bool
deriving DecidableEq

/-- Embedding of `Tenma72Base.getStatus`: send `STATUS?`, take the first buffered byte
(`statusBytes[0]` — an unguarded index, `indexError` on an empty reply) and
decode the bit fields. -/
def getStatus (dev : Device σ) (st : TState σ) : DriverRes σ Status72 :=
  let st := sendCommand dev "STATUS?" st
  let r := readBytes st
  match r.1 with
  | [] => (.error .indexError, r.2)
  | status :: _ =>
    let ch1mode := status &&& 0x01
    let ch2mode := status &&& 0x02
    let tracking := (status &&& 0x0C) >>> 2
    let beep := status &&& 0x10
    let lock := status &&& 0x20
    let out := status &&& 0x40
    let trackingStr :=
      if tracking = 0 then "Independent"
      else if tracking = 1 then "Tracking Series"
      else if tracking = 3 then "Tracking Parallel"
      else "Unknown"
    (.ok ⟨if ch1mode ≠ 0 then "C.V" else "C.C",
          if ch2mode ≠ 0 then "C.V" else "C.C",
          trackingStr, beep ≠ 0, lock ≠ 0, out ≠ 0⟩, r.2)

/-- The dictionary returned by `Tenma72_13320.getStatus`. -/
structure Status13320 where
  ch1Mode : String
  ch2Mode : String
  tracking : String
  out1Enabled : Bool
  out2Enabled : Bool
deriving DecidableEq

/-- Embedding of `Tenma72_13320.getStatus`: same unguarded `statusBytes[0]`, different
bit layout (parallel tracking is `10`, output bits 0x40/0x80). -/
def getStatus_13320 (dev : Device σ) (st : TState σ) : DriverRes σ Status13320 :=
  let st := sendCommand dev "STATUS?" st
  let r := readBytes st
  match r.1 with
  | [] => (.error .indexError, r.2)
  | status :: _ =>
    let ch1mode := status &&& 0x01
    let ch2mode := status &&& 0x02
    let tracking := (status &&& 0x0C) >>> 2
    let out1 := status &&& 0x40
    let out2 := status &&& 0x80
    let trackingStr :=
      if tracking = 0 then "Independent"
      else if tracking = 1 then "Tracking Series"
      else if tracking = 2 then "Tracking Parallel"
      else "Unknown"
    (.ok ⟨if ch1mode ≠ 0 then "C.V" else "C.C",
          if ch2mode ≠ 0 then "C.V" else "C.C",
          trackingStr, out1 ≠ 0, out2 ≠ 0⟩, r.2)

/-- The dictionary returned by `Tenma72_13360_base.getStatus`. -/
structure Status13360 where
  channelMode : String
  output : String
  priority : String
  beep : String
  lock : String
deriving DecidableEq

/-- Embedding of `Tenma72_13360_base.getStatus`: same unguarded `statusBytes[0]`. -/
def getStatus_13360 (dev : Device σ) (st : TState σ) : DriverRes σ Status13360 :=
  let st := sendCommand dev "STATUS?" st
  let r := readBytes st
  match r.1 with
  | [] => (.error .indexError, r.2)
  | status :: _ =>
    let ch1mode := status &&& 0x01
    let output := status &&& 0x02
    let currentPriority := status &&& 0x04
    let beep := status &&& 0x10
    let lock := status &&& 0x20
    (.ok ⟨if ch1mode ≠ 0 then "C.V" else "C.C",
          if output ≠ 0 then "ON" else "OFF",
          if currentPriority ≠ 0 then "Current priority" else "Voltage priority",
          if beep ≠ 0 then "ON" else "OFF",
          if lock ≠ 0 then "ON" else "OFF"⟩, r.2)

/-! ## `Tenma72_13320` overrides (also inherited by `Tenma72_13330`)

The methods below dispatch to the base implementation (`super()`) after
their channel-3-specific guards; the model descriptor argument supplies the
subclass constants. -/

/-- Embedding of `Tenma72_13320.readCurrent`: channel 3 cannot report current. -/
def readCurrent_13320 (m : ModelDesc) (dev : Device σ) (channel : ℤ)
    (st : TState σ) : DriverRes σ PyFloat :=
  if channel = 3 then (.error .rangeError, st)
  else readCurrent m dev channel st

/-- Embedding of `Tenma72_13320.runningCurrent`: channel 3 cannot report current. -/
def runningCurrent_13320 (m : ModelDesc) (dev : Device σ) (channel : ℤ)
    (st : TState σ) : DriverRes σ PyFloat :=
  if channel = 3 then (.error .rangeError, st)
  else runningCurrent m dev channel st

/-- Embedding of `Tenma72_13320.setVoltage`: channel 3 only accepts the presets 2500,
3300 and 5000 mV (Python `mV not in [2500, 3300, 5000]`, which compares
with `==`). -/
def setVoltage_13320 (m : ModelDesc) (dev : Device σ) (channel : ℤ)
    (mV : PyFloat) (st : TState σ) : DriverRes σ PyFloat :=
  if channel = 3 ∧
      ¬ (mV.PEq (.ofInt 2500) ∨ mV.PEq (.ofInt 3300) ∨ mV.PEq (.ofInt 5000)) then
    (.error .rangeError, st)
  else setVoltage m dev channel mV st

/-- Embedding of `Tenma72_13320.setOCP`: raises `NotImplementedError`, nothing written. -/
def setOCP_13320 (st : TState σ) : DriverRes σ Unit :=
  (.error .notImplementedError, st)

/-- Embedding of `Tenma72_13320.setOVP`: raises `NotImplementedError`, nothing written. -/
def setOVP_13320 (st : TState σ) : DriverRes σ Unit :=
  (.error .notImplementedError, st)

/-- Embedding of `Tenma72_13320.setTracking`: mode must be 0, 1 or 2, then `TRACK{m}`. -/
def setTracking_13320 (dev : Device σ) (trackingMode : ℤ) (st : TState σ) :
    DriverRes σ Unit :=
  if ¬ (trackingMode = 0 ∨ trackingMode = 1 ∨ trackingMode = 2) then
    (.error .rangeError, st)
  else (.ok (), sendCommand dev ("TRACK" ++ toString trackingMode) st)

/-- Rendering of a Python float inside `"{}".format(...)` for the step
commands.  The exact shortest-round-trip repr of CPython doubles is
abstracted as the exact fraction `num/den`; no claim inspects these
payloads. -/
def pyRepr (q : PyFloat) : String := toString q.num ++ "/" ++ toString q.den

/-- Embedding of `Tenma72_13320.startAutoVoltageStep`: validate channel and stop
voltage, reject a step larger than the stop value, then send
`VASTEP{ch}:{start},{stop},{step},{time}` (volts). -/
def startAutoVoltageStep_13320 (m : ModelDesc) (dev : Device σ) (channel : ℤ)
    (startMillivolts stopMillivolts stepMillivolts stepTime : PyFloat)
    (st : TState σ) : DriverRes σ Unit :=
  match checkChannel m channel with
  | .error e => (.error e, st)
  | .ok _ =>
  match checkVoltage m stopMillivolts with
  | .error e => (.error e, st)
  | .ok _ =>
    if PyFloat.Lt stopMillivolts stepMillivolts then (.error .rangeError, st)
    else
      let startVolts := startMillivolts.divInt 1000
      let stopVolts := stopMillivolts.divInt 1000
      let stepVolts := stepMillivolts.divInt 1000
      (.ok (), sendCommand dev
        ("VASTEP" ++ toString channel ++ ":" ++ pyRepr startVolts ++ "," ++
          pyRepr stopVolts ++ "," ++ pyRepr stepVolts ++ "," ++ pyRepr stepTime) st)

/-! ## `Tenma72_13360_base` (single channel, `:`-separated syntax)

Channel-free methods; only the constants and operations the claims need. -/

/-- Embedding of `Tenma72_13360_base.MAX_MV`. -/
def MAX_MV_13360 : ℤ := 60000

/-- Embedding of `Tenma72_13360_base.checkVoltage` (no channel argument). -/
def checkVoltage_13360 (mV : PyFloat) : Except TenmaError Unit :=
  if pyInt mV > MAX_MV_13360 ∨ pyInt mV < 0 then .error .rangeError else .ok ()

/-- Embedding of `Tenma72_13360_base.startAutoVoltageStep`: validate the stop voltage,
reject a step larger than the stop value, then send
`VASTEP:{start},{stop},{step},{time}`. -/
def startAutoVoltageStep_13360 (dev : Device σ)
    (startMillivolts stopMillivolts stepMillivolts stepTime : PyFloat)
    (st : TState σ) : DriverRes σ Unit :=
  match checkVoltage_13360 stopMillivolts with
  | .error e => (.error e, st)
  | .ok _ =>
    if PyFloat.Lt stopMillivolts stepMillivolts then (.error .rangeError, st)
    else
      let startVolts := startMillivolts.divInt 1000
      let stopVolts := stopMillivolts.divInt 1000
      let stepVolts := stepMillivolts.divInt 1000
      (.ok (), sendCommand dev
        ("VASTEP:" ++ pyRepr startVolts ++ "," ++ pyRepr stopVolts ++ "," ++
          pyRepr stepVolts ++ "," ++ pyRepr stepTime) st)

/-! ## Model resolver (`tenmaDcLib.py`)

`instantiate_tenma_class_from_device_response` is written to probe the
identity string over a throw-away base-driver session, then scan
`findSubclassesRecursively(Tenma72Base)` — a preorder walk of the subclass
tree in class-creation (file definition) order — for the first class one of
whose `MATCH_STR` entries is a substring of the response, falling back to
`Tenma72_2545`.  The serial probe itself is I/O glue; `resolverSelection`
below models the selection given the identity response.  `Tenma72_13360` is
NOT a subclass of `Tenma72Base` (it derives from `object`), so it is not
part of the scanned registry.

However, `tenmaDcLib.py` contains no import statements, so the names
`Tenma72Base` (lines 49 and 57) and `Tenma72_2545` (line 63) are unbound
in the module's globals (the callers in `cli.py` import *from* this
module, which binds nothing into it).  Evaluating line 49 therefore raises
`NameError` on every call, before any serial I/O or selection happens;
`instantiate_tenma_class_from_device_response` below models the function
as staged, with that name lookup made explicit. -/

/-- Python `NameError`: evaluation of an unbound module-level name. -/
inductive PyNameError where
  | nameError (name : String)
deriving DecidableEq

/-- The module-level bindings of the staged `tenmaDcLib.py`: the file has
no import statements and defines only the two functions, so no class name
(`Tenma72Base`, `Tenma72_2545`, or any other variant) is bound in its
globals. -/
def tenmaDcLibBinds (_name : String) : Bool := false

/-- The model-variant classes of `tenma_72_devices.py` that subclass
`Tenma72Base`, i.e. the resolvable registry. -/
inductive TenmaModel where
  | T72_2540
  | T72_2535
  | T72_2545
  | T72_2550
  | T72_2930
  | T72_2705
  | T72_2940
  | T72_13320
  | T72_13330
deriving DecidableEq

/-- A Python class in the scanned hierarchy: the base class or a variant. -/
inductive PyClass where
  | base
  | model (m : TenmaModel)
deriving DecidableEq

/-- Each variant's `MATCH_STR` class constant. -/
def MATCH_STR : TenmaModel → List String
  | .T72_2540 => ["72-2540"]
  | .T72_2535 => ["72-2535"]
  | .T72_2545 => ["72-2545"]
  | .T72_2550 => ["72-2550", "KORADKA6003P"]
  | .T72_2930 => ["72-2930"]
  | .T72_2705 => ["72-2705"]
  | .T72_2940 => ["72-2940"]
  | .T72_13320 => ["72-13320"]
  | .T72_13330 => ["72-13330"]

/-- Embedding of `cls.__subclasses__()`: direct subclasses in class-creation order,
i.e. the order the classes appear in `tenma_72_devices.py`
(`Tenma72_13330` subclasses `Tenma72_13320`; everything else subclasses
`Tenma72Base` directly). -/
def directSubclasses : PyClass → List TenmaModel
  | .base => [.T72_2540, .T72_2535, .T72_2545, .T72_2550, .T72_2930,
              .T72_2705, .T72_2940, .T72_13320]
  | .model .T72_13320 => [.T72_13330]
  | .model _ => []

/-- Depth of a class in the subclass tree, for termination. -/
def classRank : PyClass → ℕ
  | .base => 2
  | .model .T72_13320 => 1
  | .model _ => 0

/-- Recursion worker for `findSubclassesRecursively`: every subclass
followed by its own subclasses, recursively, preserving `__subclasses__`
order.  The fuel argument only bounds the recursion depth structurally. -/
def findSubclassesRecursivelyAux : ℕ → PyClass → List TenmaModel
  | 0, _ => []
  | Nat.succ fuel, cls =>
    (directSubclasses cls).flatMap
      (fun s => s :: findSubclassesRecursivelyAux fuel (.model s))

/-- Embedding of `findSubclassesRecursively`.  The Python recursion terminates because
the subclass tree is finite; here the depth bound `classRank cls + 1`,
which covers the whole tree below `cls`, is supplied as fuel. -/
def findSubclassesRecursively (cls : PyClass) : List TenmaModel :=
  findSubclassesRecursivelyAux (classRank cls + 1) cls

/-- Python `needle in hay` on strings: substring containment. -/
def isSubstrOf (needle hay : String) : Bool :=
  (List.range (hay.toList.length + 1)).any
    (fun i => needle.toList.isPrefixOf (hay.toList.drop i))

/-- The inner loop `for matchString in cls.MATCH_STR: if matchString in
ver: return cls`, as a predicate. -/
def modelMatches (cls : TenmaModel) (ver : String) : Bool :=
  (MATCH_STR cls).any (fun ms => isSubstrOf ms ver)

/-- The selection written in lines 57-63 of
`instantiate_tenma_class_from_device_response` — first matching registered
subclass of the identity response, else the `Tenma72_2545` fallback
(printing a diagnostic), under the intended bindings of the class names.
As staged the module never reaches these lines (see
`instantiate_tenma_class_from_device_response` below); this definition
captures the selection semantics the lines express. -/
def resolverSelection (ver : String) : TenmaModel :=
  match (findSubclassesRecursively .base).find? (fun cls => modelMatches cls ver) with
  | some cls => cls
  | none => .T72_2545

/-- Embedding of `instantiate_tenma_class_from_device_response` as staged:
the first statement (line 49, `Tenma72Base(device, debug=debug)`)
evaluates the module-global `Tenma72Base` to open the probe session; in
the staged module that name is unbound, so the call raises `NameError`
there — before any serial I/O, before the identity probe, and before the
selection and fallback of lines 57-63 (which would themselves evaluate the
unbound `Tenma72Base` and `Tenma72_2545`). -/
def instantiate_tenma_class_from_device_response (ver : String) :
    Except PyNameError TenmaModel :=
  if tenmaDcLibBinds "Tenma72Base" then .ok (resolverSelection ver)
  else .error (.nameError "Tenma72Base")

/-! ## Fake devices used as concrete transports in witnesses -/

/-- A stateless device replying to each command through a fixed function. -/
def statelessDev (f : String → String) : Device Unit := ⟨fun s c => (s, f c)⟩

/-- A device that never replies. -/
def nullDev : Device Unit := statelessDev (fun _ => "")

/-- A fixed-reply transport for channel 1 of the generic model: it echoes
`"5.00"` for the voltage query and `"1.000"` for the current query —
exactly the wire values that `setVoltage 1 5000` / `setCurrent 1 1000`
send. -/
def echoF : String → String := fun c =>
  if c = "VSET1?" then "5.00" else if c = "ISET1?" then "1.000" else ""

/-- A fresh single-session transport state over a stateless device. -/
def st0 : TState Unit := ⟨(), [], ""⟩

/-- The payload after the first `:` of a wire command. -/
def afterColon (cmd : String) : String :=
  String.mk ((cmd.toList.dropWhile (fun c => c ≠ ':')).drop 1)

/-- An echoing device: remembers the payload of the last `VSET{ch}:v` /
`ISET{ch}:i` set command and replies with exactly that payload to the
matching query, i.e. it echoes back the value just set. -/
def echoDev : Device (String × String) :=
  ⟨fun s cmd =>
    if cmd.toList.contains '?' then
      if cmd.toList.take 4 = "VSET".toList then (s, s.1)
      else if cmd.toList.take 4 = "ISET".toList then (s, s.2)
      else (s, "")
    else
      if cmd.toList.take 4 = "VSET".toList then ((afterColon cmd, s.2), "")
      else if cmd.toList.take 4 = "ISET".toList then ((s.1, afterColon cmd), "")
      else (s, "")⟩

/-- A fresh transport state over `echoDev` whose stored readings are
5.00 V and 1.000 A. -/
def est0 : TState (String × String) := ⟨("5.00", "1.000"), [], ""⟩

/-! ## Helper lemmas -/

theorem pyInt_ofInt (n : ℤ) : pyInt (.ofInt n) = n := Int.tdiv_one n

theorem checkChannel_invalid {m : ModelDesc} {channel : ℤ}
    (h : channel < 1 ∨ channel > m.NCHANNELS) :
    checkChannel m channel = .error .rangeError := by
  rw [checkChannel, if_pos (by omega)]

theorem checkChannel_valid {m : ModelDesc} {channel : ℤ}
    (h1 : 1 ≤ channel) (h2 : channel ≤ m.NCHANNELS) :
    checkChannel m channel = .ok () := by
  rw [checkChannel, if_neg (by omega)]

theorem checkVoltage_invalid {m : ModelDesc} {mV : PyFloat}
    (h : pyInt mV < 0 ∨ pyInt mV > m.MAX_MV) :
    checkVoltage m mV = .error .rangeError := by
  rw [checkVoltage, if_pos (by omega)]

theorem checkVoltage_valid {m : ModelDesc} {mV : PyFloat}
    (h1 : 0 ≤ pyInt mV) (h2 : pyInt mV ≤ m.MAX_MV) :
    checkVoltage m mV = .ok () := by
  rw [checkVoltage, if_neg (by omega)]

theorem checkCurrent_valid {m : ModelDesc} {mA : PyFloat}
    (h1 : 0 ≤ pyInt mA) (h2 : pyInt mA ≤ m.MAX_MA) :
    checkCurrent m mA = .ok () := by
  rw [checkCurrent, if_neg (by omega)]

theorem checkConf_invalid {m : ModelDesc} {conf : ℤ}
    (h : conf < 1 ∨ conf > m.NCONFS) :
    checkConf m conf = .error .rangeError := by
  rw [checkConf, if_pos (by omega)]

/-- The channel check has exactly two outcomes. -/
theorem checkChannel_valid_or (m : ModelDesc) (channel : ℤ) :
    checkChannel m channel = .ok ()
    ∨ checkChannel m channel = .error .rangeError := by
  rw [checkChannel]
  split <;> simp

/-- After a passed channel check, `readVoltage` appends exactly its query
to the trace and can only return a parsed value or a `valueError`. -/
theorem readVoltage_after_check {σ : Type} {m : ModelDesc} (dev : Device σ)
    {channel : ℤ} (st : TState σ) (hc : checkChannel m channel = .ok ()) :
    (readVoltage m dev channel st).2.trace
        = st.trace ++ ["VSET" ++ toString channel ++ "?"]
    ∧ ((readVoltage m dev channel st).1 = .error .valueError
        ∨ ∃ q, (readVoltage m dev channel st).1 = .ok q) := by
  rw [readVoltage, hc]
  simp only [readOutput, sendCommand]
  split <;> simp

/-- After a passed channel check, `readCurrent` appends exactly its query
to the trace and can only return a parsed value or a `valueError`. -/
theorem readCurrent_after_check {σ : Type} {m : ModelDesc} (dev : Device σ)
    {channel : ℤ} (st : TState σ) (hc : checkChannel m channel = .ok ()) :
    (readCurrent m dev channel st).2.trace
        = st.trace ++ ["ISET" ++ toString channel ++ "?"]
    ∧ ((readCurrent m dev channel st).1 = .error .valueError
        ∨ ∃ q, (readCurrent m dev channel st).1 = .ok q) := by
  rw [readCurrent, hc]
  simp only [readOutput, sendCommand]
  split <;> simp

/-- After passed channel and magnitude checks, `setVoltage` can only
return a parsed value, a `valueError` or a `verificationError`. -/
theorem setVoltage_after_checks {σ : Type} {m : ModelDesc} (dev : Device σ)
    {channel : ℤ} {mV : PyFloat} (st : TState σ)
    (hc : checkChannel m channel = .ok ()) (hv : checkVoltage m mV = .ok ()) :
    (setVoltage m dev channel mV st).1 = .error .valueError
    ∨ (setVoltage m dev channel mV st).1 = .error .verificationError
    ∨ ∃ q, (setVoltage m dev channel mV st).1 = .ok q := by
  rw [setVoltage, hc, hv]
  set st1 := sendCommand dev
    ("VSET" ++ toString channel ++ ":" ++ formatFixed 2 (mV.divInt 1000)) st with hst1
  rcases hrv : readVoltage m dev channel st1 with ⟨res, st2⟩
  have hshape := (readVoltage_after_check dev st1 hc).2
  rw [hrv] at hshape
  rcases res with e | q
  · rcases hshape with h | ⟨q', h⟩ <;> simp at h
    subst h
    simp [hrv]
  · by_cases hcmp : pyInt (q.mul (.ofInt 1000)) ≠ pyInt mV <;> simp [hrv, hcmp]

/-! ## C5 — invalid channel is rejected before any write -/

/-- C5: for every channel outside `[1, NCHANNELS]` of the model, each of
`setVoltage`, `setCurrent`, `readVoltage` and `readCurrent` fails with a
range error and leaves the transport untouched (no command written). -/
theorem invalid_channel_rejected_before_write {σ : Type} (m : ModelDesc)
    (dev : Device σ) (st : TState σ) (channel : ℤ) (mV mA : PyFloat)
    (h : channel < 1 ∨ channel > m.NCHANNELS) :
    setVoltage m dev channel mV st = (.error .rangeError, st)
    ∧ setCurrent m dev channel mA st = (.error .rangeError, st)
    ∧ readVoltage m dev channel st = (.error .rangeError, st)
    ∧ readCurrent m dev channel st = (.error .rangeError, st) := by
  have hc := checkChannel_invalid h
  exact ⟨by rw [setVoltage, hc], by rw [setCurrent, hc],
         by rw [readVoltage, hc], by rw [readCurrent, hc]⟩

/-- C5 witness: channel 2 on the single-channel generic model. -/
theorem invalid_channel_rejected_before_write_witness :
    setVoltage Tenma72Base nullDev 2 (.ofInt 1000) st0 = (.error .rangeError, st0)
    ∧ setCurrent Tenma72Base nullDev 2 (.ofInt 1000) st0 = (.error .rangeError, st0)
    ∧ readVoltage Tenma72Base nullDev 2 st0 = (.error .rangeError, st0)
    ∧ readCurrent Tenma72Base nullDev 2 st0 = (.error .rangeError, st0) :=
  invalid_channel_rejected_before_write Tenma72Base nullDev st0 2
    (.ofInt 1000) (.ofInt 1000) (by decide)

/-! ## C6 — voltage magnitude bounds -/

/-- C6: `setVoltage` fails with a range error (and writes nothing) for
every requested `mV` outside `[0, MAX_MV]`, while the boundary values `0`
and `MAX_MV` are not rejected by the range check on any well-formed model
with a valid channel. -/
theorem setVoltage_magnitude_bounds {σ : Type} (m : ModelDesc)
    (dev : Device σ) (st : TState σ) (channel : ℤ) :
    (∀ mV : ℤ, (mV < 0 ∨ mV > m.MAX_MV) →
      setVoltage m dev channel (.ofInt mV) st = (.error .rangeError, st))
    ∧ (1 ≤ channel → channel ≤ m.NCHANNELS → 0 ≤ m.MAX_MV →
        (setVoltage m dev channel (.ofInt 0) st).1 ≠ .error .rangeError
        ∧ (setVoltage m dev channel (.ofInt m.MAX_MV) st).1 ≠ .error .rangeError) := by
  constructor
  · intro mV hmv
    rcases checkChannel_valid_or m channel with hc | hc
    · have hv : checkVoltage m (.ofInt mV) = .error .rangeError :=
        checkVoltage_invalid (by rw [pyInt_ofInt]; exact hmv)
      rw [setVoltage, hc, hv]
    · rw [setVoltage, hc]
  · intro h1 h2 h3
    have hc := checkChannel_valid h1 h2
    constructor
    · have hv : checkVoltage m (.ofInt 0) = .ok () :=
        checkVoltage_valid (by rw [pyInt_ofInt]) (by rw [pyInt_ofInt]; exact h3)
      rcases setVoltage_after_checks dev st hc hv with h | h | ⟨q, h⟩ <;> rw [h] <;> simp
    · have hv : checkVoltage m (.ofInt m.MAX_MV) = .ok () :=
        checkVoltage_valid (by rw [pyInt_ofInt]; exact h3) (by rw [pyInt_ofInt])
      rcases setVoltage_after_checks dev st hc hv with h | h | ⟨q, h⟩ <;> rw [h] <;> simp

/-- C6 witness: on the generic model, `setVoltage 1 30001` and
`setVoltage 1 (-1)` are range errors; 0 and 30000 pass the range check. -/
theorem setVoltage_magnitude_bounds_witness :
    setVoltage Tenma72Base nullDev 1 (.ofInt 30001) st0 = (.error .rangeError, st0)
    ∧ setVoltage Tenma72Base nullDev 1 (.ofInt (-1)) st0 = (.error .rangeError, st0)
    ∧ (setVoltage Tenma72Base nullDev 1 (.ofInt 0) st0).1 ≠ .error .rangeError
    ∧ (setVoltage Tenma72Base nullDev 1 (.ofInt 30000) st0).1 ≠ .error .rangeError :=
  ⟨(setVoltage_magnitude_bounds Tenma72Base nullDev st0 1).1 30001 (by decide),
   (setVoltage_magnitude_bounds Tenma72Base nullDev st0 1).1 (-1) (by decide),
   ((setVoltage_magnitude_bounds Tenma72Base nullDev st0 1).2 (by decide) (by decide)
     (by decide)).1,
   ((setVoltage_magnitude_bounds Tenma72Base nullDev st0 1).2 (by decide) (by decide)
     (by decide)).2⟩

/-! ## C7 — memory-slot bounds -/

/-- C7: `recallConf` and `saveConf` fail with a range error and write
nothing whenever the slot is outside `[1, NCONFS]`; on the NCONFS = 0
models 72-13320 and 72-13330 every slot value is rejected. -/
theorem conf_slot_bounds {σ : Type} (m : ModelDesc) (dev : Device σ)
    (st : TState σ) :
    (∀ conf : ℤ, (conf < 1 ∨ conf > m.NCONFS) →
      recallConf m dev conf st = (.error .rangeError, st)
      ∧ saveConf m dev conf st = (.error .rangeError, st))
    ∧ (∀ conf : ℤ,
      recallConf Tenma72_13320 dev conf st = (.error .rangeError, st)
      ∧ saveConf Tenma72_13320 dev conf st = (.error .rangeError, st)
      ∧ recallConf Tenma72_13330 dev conf st = (.error .rangeError, st)
      ∧ saveConf Tenma72_13330 dev conf st = (.error .rangeError, st)) := by
  have hrej : ∀ (m' : ModelDesc) (conf : ℤ), (conf < 1 ∨ conf > m'.NCONFS) →
      recallConf m' dev conf st = (.error .rangeError, st)
      ∧ saveConf m' dev conf st = (.error .rangeError, st) := by
    intro m' conf h
    have hc := checkConf_invalid (m := m') h
    exact ⟨by rw [recallConf, hc], by rw [saveConf, hc]⟩
  refine ⟨hrej m, fun conf => ?_⟩
  have h20 : conf < 1 ∨ conf > Tenma72_13320.NCONFS := by
    show conf < 1 ∨ conf > 0
    omega
  have h30 : conf < 1 ∨ conf > Tenma72_13330.NCONFS := by
    show conf < 1 ∨ conf > 0
    omega
  exact ⟨(hrej _ conf h20).1, (hrej _ conf h20).2,
         (hrej _ conf h30).1, (hrej _ conf h30).2⟩

/-- The voltage check has exactly two outcomes. -/
theorem checkVoltage_valid_or (m : ModelDesc) (mV : PyFloat) :
    checkVoltage m mV = .ok () ∨ checkVoltage m mV = .error .rangeError := by
  rw [checkVoltage]
  split <;> simp

/-- The current check has exactly two outcomes. -/
theorem checkCurrent_valid_or (m : ModelDesc) (mA : PyFloat) :
    checkCurrent m mA = .ok () ∨ checkCurrent m mA = .error .rangeError := by
  rw [checkCurrent]
  split <;> simp

/-- The slot check has exactly two outcomes. -/
theorem checkConf_valid_or (m : ModelDesc) (conf : ℤ) :
    checkConf m conf = .ok () ∨ checkConf m conf = .error .rangeError := by
  rw [checkConf]
  split <;> simp

theorem sendCommand_trace {σ : Type} (dev : Device σ) (cmd : String)
    (st : TState σ) : (sendCommand dev cmd st).trace = st.trace ++ [cmd] := rfl

/-- A successful `readVoltage` passed the channel check and appended
exactly its query to the trace. -/
theorem readVoltage_ok {σ : Type} {m : ModelDesc} {dev : Device σ}
    {channel : ℤ} {st st' : TState σ} {q : PyFloat}
    (h : readVoltage m dev channel st = (.ok q, st')) :
    checkChannel m channel = .ok ()
    ∧ st'.trace = st.trace ++ ["VSET" ++ toString channel ++ "?"] := by
  rcases checkChannel_valid_or m channel with hc | hc
  · refine ⟨hc, ?_⟩
    have htr := (readVoltage_after_check dev st hc).1
    rw [h] at htr
    exact htr
  · rw [readVoltage, hc] at h
    simp at h

/-- A successful `readCurrent` passed the channel check and appended
exactly its query to the trace. -/
theorem readCurrent_ok {σ : Type} {m : ModelDesc} {dev : Device σ}
    {channel : ℤ} {st st' : TState σ} {q : PyFloat}
    (h : readCurrent m dev channel st = (.ok q, st')) :
    checkChannel m channel = .ok ()
    ∧ st'.trace = st.trace ++ ["ISET" ++ toString channel ++ "?"] := by
  rcases checkChannel_valid_or m channel with hc | hc
  · refine ⟨hc, ?_⟩
    have htr := (readCurrent_after_check dev st hc).1
    rw [h] at htr
    exact htr
  · rw [readCurrent, hc] at h
    simp at h

/-- A successful `recallConf` appended exactly `RCL{conf}` to the trace. -/
theorem recallConf_ok {σ : Type} {m : ModelDesc} {dev : Device σ}
    {conf : ℤ} {st st' : TState σ} {u : Unit}
    (h : recallConf m dev conf st = (.ok u, st')) :
    st'.trace = st.trace ++ ["RCL" ++ toString conf] := by
  rcases checkConf_valid_or m conf with hc | hc <;> rw [recallConf, hc] at h
  · obtain ⟨-, h2⟩ := Prod.mk.injEq .. ▸ h
    rw [← h2, sendCommand_trace]
  · simp at h

/-- A successful `saveConf` appended exactly `SAV{conf}` to the trace. -/
theorem saveConf_ok {σ : Type} {m : ModelDesc} {dev : Device σ}
    {conf : ℤ} {st st' : TState σ} {u : Unit}
    (h : saveConf m dev conf st = (.ok u, st')) :
    st'.trace = st.trace ++ ["SAV" ++ toString conf] := by
  rcases checkConf_valid_or m conf with hc | hc <;> rw [saveConf, hc] at h
  · obtain ⟨-, h2⟩ := Prod.mk.injEq .. ▸ h
    rw [← h2, sendCommand_trace]
  · simp at h

/-- A successful `setVoltage` appended exactly its set command followed by
its verification read-back query to the trace. -/
theorem setVoltage_ok {σ : Type} {m : ModelDesc} {dev : Device σ}
    {channel : ℤ} {mV : PyFloat} {st st' : TState σ} {q : PyFloat}
    (h : setVoltage m dev channel mV st = (.ok q, st')) :
    st'.trace = st.trace
      ++ ["VSET" ++ toString channel ++ ":" ++ formatFixed 2 (mV.divInt 1000),
          "VSET" ++ toString channel ++ "?"] := by
  rcases checkChannel_valid_or m channel with hc | hc
  swap
  · rw [setVoltage, hc] at h
    simp at h
  rcases checkVoltage_valid_or m mV with hv | hv
  swap
  · rw [setVoltage, hc, hv] at h
    simp at h
  rw [setVoltage, hc, hv] at h
  dsimp only at h
  rcases hrv : readVoltage m dev channel (sendCommand dev
      ("VSET" ++ toString channel ++ ":" ++ formatFixed 2 (mV.divInt 1000)) st)
    with ⟨res, st2⟩
  rw [hrv] at h
  rcases res with e | rv
  · simp at h
  · dsimp only at h
    by_cases hcmp : pyInt (rv.mul (.ofInt 1000)) ≠ pyInt mV
    · rw [if_pos hcmp] at h
      simp at h
    · rw [if_neg hcmp] at h
      obtain ⟨-, h2⟩ := Prod.mk.injEq .. ▸ h
      rw [← h2, (readVoltage_ok hrv).2, sendCommand_trace, List.append_assoc]
      rfl

/-- A successful `setCurrent` appended exactly its set command followed by
its verification read-back query to the trace. -/
theorem setCurrent_ok {σ : Type} {m : ModelDesc} {dev : Device σ}
    {channel : ℤ} {mA : PyFloat} {st st' : TState σ} {q : PyFloat}
    (h : setCurrent m dev channel mA st = (.ok q, st')) :
    st'.trace = st.trace
      ++ ["ISET" ++ toString channel ++ ":" ++ formatFixed 3 (mA.divInt 1000),
          "ISET" ++ toString channel ++ "?"] := by
  rcases checkChannel_valid_or m channel with hc | hc
  swap
  · rw [setCurrent, hc] at h
    simp at h
  rcases checkCurrent_valid_or m mA with ha | ha
  swap
  · rw [setCurrent, hc, ha] at h
    simp at h
  rw [setCurrent, hc, ha] at h
  dsimp only at h
  rcases hrc : readCurrent m dev channel (sendCommand dev
      ("ISET" ++ toString channel ++ ":" ++ formatFixed 3 (mA.divInt 1000)) st)
    with ⟨res, st2⟩
  rw [hrc] at h
  rcases res with e | rc
  · simp at h
  · dsimp only at h
    by_cases hcmp : ¬ PyFloat.PEq (.ofInt (pyInt (rc.mul (.ofInt 1000)))) mA
    · rw [if_pos hcmp] at h
      simp at h
    · rw [if_neg hcmp] at h
      obtain ⟨-, h2⟩ := Prod.mk.injEq .. ▸ h
      rw [← h2, (readCurrent_ok hrc).2, sendCommand_trace, List.append_assoc]
      rfl

/-! ## C1 — set/read-back verification -/

/-- C1 counterexample: `setVoltage(1, 4999)` on the generic model with a
transport that echoes back exactly the value just set raises a
verification error, because 4.999 V is quantized to the wire value
`"5.00"` and the echoed read-back truncates to 5000 mV ≠ 4999 mV.  The
final device state certifies the echo: the device stored and replied
exactly the formatted payload that was just set. -/
theorem setVoltage_exact_echo_mismatch :
    (setVoltage Tenma72Base echoDev 1 (.ofInt 4999) ⟨("", ""), [], ""⟩).1
        = .error .verificationError
    ∧ (setVoltage Tenma72Base echoDev 1 (.ofInt 4999) ⟨("", ""), [], ""⟩).2.trace
        = ["VSET1:" ++ formatFixed 2 ((PyFloat.ofInt 4999).divInt 1000), "VSET1?"]
    ∧ (setVoltage Tenma72Base echoDev 1 (.ofInt 4999) ⟨("", ""), [], ""⟩).2.devState
        = (formatFixed 2 ((PyFloat.ofInt 4999).divInt 1000), "") := by
  decide

/-- C1 (amended): for a valid channel and in-range request on the generic
model, `setVoltage` (`setCurrent`) writes the set command followed by the
read-back query, and — when the transport's reply to the query parses to
`qv` (`qc`) — raises a verification error exactly when the read-back value
truncated to whole mV (mA) differs from the requested value, returning the
parsed read-back value otherwise. -/
theorem setValue_readback_verification (f : String → String) (channel : ℤ)
    (mV mA : ℤ) (qv qc : PyFloat)
    (hch1 : 1 ≤ channel) (hch2 : channel ≤ Tenma72Base.NCHANNELS)
    (hv1 : 0 ≤ mV) (hv2 : mV ≤ Tenma72Base.MAX_MV)
    (ha1 : 0 ≤ mA) (ha2 : mA ≤ Tenma72Base.MAX_MA)
    (hfv : f ("VSET" ++ toString channel ++ ":"
      ++ formatFixed 2 ((PyFloat.ofInt mV).divInt 1000)) = "")
    (hqv : parseRat? (f ("VSET" ++ toString channel ++ "?")) = some qv)
    (hfa : f ("ISET" ++ toString channel ++ ":"
      ++ formatFixed 3 ((PyFloat.ofInt mA).divInt 1000)) = "")
    (hqa : parseRat? ((f ("ISET" ++ toString channel ++ "?")).take 5) = some qc) :
    setVoltage Tenma72Base (statelessDev f) channel (.ofInt mV) st0
      = (if pyInt (qv.mul (.ofInt 1000)) = mV then .ok qv
          else .error .verificationError,
         ⟨(), ["VSET" ++ toString channel ++ ":"
            ++ formatFixed 2 ((PyFloat.ofInt mV).divInt 1000),
            "VSET" ++ toString channel ++ "?"], ""⟩)
    ∧ setCurrent Tenma72Base (statelessDev f) channel (.ofInt mA) st0
      = (if PyFloat.PEq (.ofInt (pyInt (qc.mul (.ofInt 1000)))) (.ofInt mA)
          then .ok qc else .error .verificationError,
         ⟨(), ["ISET" ++ toString channel ++ ":"
            ++ formatFixed 3 ((PyFloat.ofInt mA).divInt 1000),
            "ISET" ++ toString channel ++ "?"], ""⟩) := by
  have hc := checkChannel_valid hch1 hch2
  constructor
  · have hv : checkVoltage Tenma72Base (.ofInt mV) = .ok () :=
      checkVoltage_valid (by rw [pyInt_ofInt]; exact hv1) (by rw [pyInt_ofInt]; exact hv2)
    have hst1 : sendCommand (statelessDev f)
        ("VSET" ++ toString channel ++ ":"
          ++ formatFixed 2 ((PyFloat.ofInt mV).divInt 1000)) st0
        = ⟨(), ["VSET" ++ toString channel ++ ":"
            ++ formatFixed 2 ((PyFloat.ofInt mV).divInt 1000)], ""⟩ := by
      simp [sendCommand, statelessDev, st0, hfv]
    have hrv : readVoltage Tenma72Base (statelessDev f) channel
        ⟨(), ["VSET" ++ toString channel ++ ":"
          ++ formatFixed 2 ((PyFloat.ofInt mV).divInt 1000)], ""⟩
        = (.ok qv,
           ⟨(), ["VSET" ++ toString channel ++ ":"
              ++ formatFixed 2 ((PyFloat.ofInt mV).divInt 1000),
              "VSET" ++ toString channel ++ "?"], ""⟩) := by
      rw [readVoltage, hc]
      simp [sendCommand, statelessDev, readOutput, hqv]
    rw [setVoltage, hc, hv]
    dsimp only
    rw [hst1, hrv]
    dsimp only
    rw [pyInt_ofInt]
    by_cases hcmp : pyInt (qv.mul (.ofInt 1000)) = mV
    · rw [if_pos hcmp, if_neg (by omega)]
    · rw [if_neg hcmp, if_pos (by omega)]
  · have ha : checkCurrent Tenma72Base (.ofInt mA) = .ok () :=
      checkCurrent_valid (by rw [pyInt_ofInt]; exact ha1) (by rw [pyInt_ofInt]; exact ha2)
    have hst1 : sendCommand (statelessDev f)
        ("ISET" ++ toString channel ++ ":"
          ++ formatFixed 3 ((PyFloat.ofInt mA).divInt 1000)) st0
        = ⟨(), ["ISET" ++ toString channel ++ ":"
            ++ formatFixed 3 ((PyFloat.ofInt mA).divInt 1000)], ""⟩ := by
      simp [sendCommand, statelessDev, st0, hfa]
    have hrc : readCurrent Tenma72Base (statelessDev f) channel
        ⟨(), ["ISET" ++ toString channel ++ ":"
          ++ formatFixed 3 ((PyFloat.ofInt mA).divInt 1000)], ""⟩
        = (.ok qc,
           ⟨(), ["ISET" ++ toString channel ++ ":"
              ++ formatFixed 3 ((PyFloat.ofInt mA).divInt 1000),
              "ISET" ++ toString channel ++ "?"], ""⟩) := by
      rw [readCurrent, hc]
      simp [sendCommand, statelessDev, readOutput, hqa]
    rw [setCurrent, hc, ha]
    dsimp only
    rw [hst1, hrc]
    dsimp only
    by_cases hcmp : PyFloat.PEq (.ofInt (pyInt (qc.mul (.ofInt 1000)))) (.ofInt mA)
    · rw [if_pos hcmp, if_neg (by simpa using hcmp)]
    · rw [if_neg hcmp, if_pos (by simpa using hcmp)]

/-- C1 witness: with an exact echo, `setVoltage(1, 5000)` returns the
read-back 5.0 (as the exact fraction 500/100) and `setCurrent(1, 1000)`
returns 1.0, neither raising. -/
theorem setValue_readback_verification_witness :
    setVoltage Tenma72Base (statelessDev echoF) 1 (.ofInt 5000) st0
      = (.ok ⟨500, 100⟩, ⟨(), ["VSET1:5.00", "VSET1?"], ""⟩)
    ∧ setCurrent Tenma72Base (statelessDev echoF) 1 (.ofInt 1000) st0
      = (.ok ⟨1000, 1000⟩, ⟨(), ["ISET1:1.000", "ISET1?"], ""⟩) := by
  have h := setValue_readback_verification echoF 1 5000 1000 ⟨500, 100⟩ ⟨1000, 1000⟩
    (by decide) (by decide) (by decide) (by decide) (by decide) (by decide)
    (by decide) (by decide) (by decide) (by decide)
  refine ⟨?_, ?_⟩
  · rw [h.1]
    decide
  · rw [h.2]
    decide

/-- After a passed channel check, `runningVoltage` appends exactly its
query and can only return a parsed value or a `valueError`. -/
theorem runningVoltage_after_check {σ : Type} {m : ModelDesc} (dev : Device σ)
    {channel : ℤ} (st : TState σ) (hc : checkChannel m channel = .ok ()) :
    (runningVoltage m dev channel st).2.trace
        = st.trace ++ ["VOUT" ++ toString channel ++ "?"]
    ∧ ((runningVoltage m dev channel st).1 = .error .valueError
        ∨ ∃ q, (runningVoltage m dev channel st).1 = .ok q) := by
  rw [runningVoltage, hc]
  simp only [readOutput, sendCommand]
  split <;> simp

/-- After a passed channel check, `runningCurrent` appends exactly its
query and can only return a parsed value or a `valueError`. -/
theorem runningCurrent_after_check {σ : Type} {m : ModelDesc} (dev : Device σ)
    {channel : ℤ} (st : TState σ) (hc : checkChannel m channel = .ok ()) :
    (runningCurrent m dev channel st).2.trace
        = st.trace ++ ["IOUT" ++ toString channel ++ "?"]
    ∧ ((runningCurrent m dev channel st).1 = .error .valueError
        ∨ ∃ q, (runningCurrent m dev channel st).1 = .ok q) := by
  rw [runningCurrent, hc]
  simp only [readOutput, sendCommand]
  split <;> simp

/-- After passed channel and magnitude checks, `setCurrent` can only
return a parsed value, a `valueError` or a `verificationError`. -/
theorem setCurrent_after_checks {σ : Type} {m : ModelDesc} (dev : Device σ)
    {channel : ℤ} {mA : PyFloat} (st : TState σ)
    (hc : checkChannel m channel = .ok ()) (ha : checkCurrent m mA = .ok ()) :
    (setCurrent m dev channel mA st).1 = .error .valueError
    ∨ (setCurrent m dev channel mA st).1 = .error .verificationError
    ∨ ∃ q, (setCurrent m dev channel mA st).1 = .ok q := by
  rw [setCurrent, hc, ha]
  set st1 := sendCommand dev
    ("ISET" ++ toString channel ++ ":" ++ formatFixed 3 (mA.divInt 1000)) st with hst1
  rcases hrc : readCurrent m dev channel st1 with ⟨res, st2⟩
  have hshape := (readCurrent_after_check dev st1 hc).2
  rw [hrc] at hshape
  rcases res with e | q
  · rcases hshape with h | ⟨q', h⟩ <;> simp at h
    subst h
    simp [hrc]
  · by_cases hcmp : ¬ PyFloat.PEq (.ofInt (pyInt (q.mul (.ofInt 1000)))) mA <;>
      simp [hrc, hcmp]

/-- A range error from `readVoltage` leaves the transport untouched. -/
theorem readVoltage_range_unchanged {σ : Type} {m : ModelDesc}
    {dev : Device σ} {channel : ℤ} {st : TState σ}
    (h : (readVoltage m dev channel st).1 = .error .rangeError) :
    readVoltage m dev channel st = (.error .rangeError, st) := by
  rcases checkChannel_valid_or m channel with hc | hc
  · rcases (readVoltage_after_check dev st hc).2 with h2 | ⟨q, h2⟩ <;>
      rw [h2] at h <;> simp at h
  · rw [readVoltage, hc]

/-- A range error from `readCurrent` leaves the transport untouched. -/
theorem readCurrent_range_unchanged {σ : Type} {m : ModelDesc}
    {dev : Device σ} {channel : ℤ} {st : TState σ}
    (h : (readCurrent m dev channel st).1 = .error .rangeError) :
    readCurrent m dev channel st = (.error .rangeError, st) := by
  rcases checkChannel_valid_or m channel with hc | hc
  · rcases (readCurrent_after_check dev st hc).2 with h2 | ⟨q, h2⟩ <;>
      rw [h2] at h <;> simp at h
  · rw [readCurrent, hc]

/-- A range error from `runningVoltage` leaves the transport untouched. -/
theorem runningVoltage_range_unchanged {σ : Type} {m : ModelDesc}
    {dev : Device σ} {channel : ℤ} {st : TState σ}
    (h : (runningVoltage m dev channel st).1 = .error .rangeError) :
    runningVoltage m dev channel st = (.error .rangeError, st) := by
  rcases checkChannel_valid_or m channel with hc | hc
  · rcases (runningVoltage_after_check dev st hc).2 with h2 | ⟨q, h2⟩ <;>
      rw [h2] at h <;> simp at h
  · rw [runningVoltage, hc]

/-- A range error from `runningCurrent` leaves the transport untouched. -/
theorem runningCurrent_range_unchanged {σ : Type} {m : ModelDesc}
    {dev : Device σ} {channel : ℤ} {st : TState σ}
    (h : (runningCurrent m dev channel st).1 = .error .rangeError) :
    runningCurrent m dev channel st = (.error .rangeError, st) := by
  rcases checkChannel_valid_or m channel with hc | hc
  · rcases (runningCurrent_after_check dev st hc).2 with h2 | ⟨q, h2⟩ <;>
      rw [h2] at h <;> simp at h
  · rw [runningCurrent, hc]

/-- A range error from `setVoltage` leaves the transport untouched. -/
theorem setVoltage_range_unchanged {σ : Type} {m : ModelDesc}
    {dev : Device σ} {channel : ℤ} {mV : PyFloat} {st : TState σ}
    (h : (setVoltage m dev channel mV st).1 = .error .rangeError) :
    setVoltage m dev channel mV st = (.error .rangeError, st) := by
  rcases checkChannel_valid_or m channel with hc | hc
  swap
  · rw [setVoltage, hc]
  rcases checkVoltage_valid_or m mV with hv | hv
  swap
  · rw [setVoltage, hc, hv]
  rcases setVoltage_after_checks dev st hc hv with h2 | h2 | ⟨q, h2⟩ <;>
    rw [h2] at h <;> simp at h

/-- A range error from `setCurrent` leaves the transport untouched. -/
theorem setCurrent_range_unchanged {σ : Type} {m : ModelDesc}
    {dev : Device σ} {channel : ℤ} {mA : PyFloat} {st : TState σ}
    (h : (setCurrent m dev channel mA st).1 = .error .rangeError) :
    setCurrent m dev channel mA st = (.error .rangeError, st) := by
  rcases checkChannel_valid_or m channel with hc | hc
  swap
  · rw [setCurrent, hc]
  rcases checkCurrent_valid_or m mA with ha | ha
  swap
  · rw [setCurrent, hc, ha]
  rcases setCurrent_after_checks dev st hc ha with h2 | h2 | ⟨q, h2⟩ <;>
    rw [h2] at h <;> simp at h

/-- The 72-13360 voltage check has exactly two outcomes. -/
theorem checkVoltage_13360_valid_or (mV : PyFloat) :
    checkVoltage_13360 mV = .ok ()
    ∨ checkVoltage_13360 mV = .error .rangeError := by
  rw [checkVoltage_13360]
  split <;> simp

/-! ## C4 — validation precedes wire I/O (with one exception) -/

/-- C4 counterexample: `saveConfFlow(1, 2)` on the single-channel generic
model has an out-of-range channel and fails with a range error, yet the
`OUT0` command has already been written when the error is raised — the
channel is validated only inside the post-OFF voltage read. -/
theorem saveConfFlow_writes_before_channel_error :
    (saveConfFlow Tenma72Base echoDev 1 2 est0).1 = .error .rangeError
    ∧ (saveConfFlow Tenma72Base echoDev 1 2 est0).2.trace = ["OUT0"] := by
  decide

/-- C4 (amended): every modelled driver operation except `saveConfFlow`
raises its range/unsupported error before any wire I/O — a range error
outcome returns the transport state untouched, and the unsupported
operations write nothing.  `saveConfFlow` validates the memory slot before
any I/O, but an invalid channel is detected only inside the voltage read
that follows the output-off command, so in that case `OUT0` has already
been written when the range error is raised. -/
theorem range_errors_precede_wire_io {σ : Type} (m : ModelDesc)
    (dev : Device σ) (st : TState σ) (channel conf trackingMode : ℤ)
    (mV mA start stop step time : PyFloat) :
    ((setVoltage m dev channel mV st).1 = .error .rangeError →
      setVoltage m dev channel mV st = (.error .rangeError, st))
    ∧ ((setCurrent m dev channel mA st).1 = .error .rangeError →
      setCurrent m dev channel mA st = (.error .rangeError, st))
    ∧ ((readVoltage m dev channel st).1 = .error .rangeError →
      readVoltage m dev channel st = (.error .rangeError, st))
    ∧ ((readCurrent m dev channel st).1 = .error .rangeError →
      readCurrent m dev channel st = (.error .rangeError, st))
    ∧ ((runningVoltage m dev channel st).1 = .error .rangeError →
      runningVoltage m dev channel st = (.error .rangeError, st))
    ∧ ((runningCurrent m dev channel st).1 = .error .rangeError →
      runningCurrent m dev channel st = (.error .rangeError, st))
    ∧ ((recallConf m dev conf st).1 = .error .rangeError →
      recallConf m dev conf st = (.error .rangeError, st))
    ∧ ((saveConf m dev conf st).1 = .error .rangeError →
      saveConf m dev conf st = (.error .rangeError, st))
    ∧ ((readCurrent_13320 m dev channel st).1 = .error .rangeError →
      readCurrent_13320 m dev channel st = (.error .rangeError, st))
    ∧ ((runningCurrent_13320 m dev channel st).1 = .error .rangeError →
      runningCurrent_13320 m dev channel st = (.error .rangeError, st))
    ∧ ((setVoltage_13320 m dev channel mV st).1 = .error .rangeError →
      setVoltage_13320 m dev channel mV st = (.error .rangeError, st))
    ∧ ((setTracking_13320 dev trackingMode st).1 = .error .rangeError →
      setTracking_13320 dev trackingMode st = (.error .rangeError, st))
    ∧ setOCP_13320 st = ((.error .notImplementedError : Except TenmaError Unit), st)
    ∧ setOVP_13320 st = ((.error .notImplementedError : Except TenmaError Unit), st)
    ∧ ((startAutoVoltageStep_13320 m dev channel start stop step time st).1
          = .error .rangeError →
      startAutoVoltageStep_13320 m dev channel start stop step time st
          = (.error .rangeError, st))
    ∧ ((startAutoVoltageStep_13360 dev start stop step time st).1
          = .error .rangeError →
      startAutoVoltageStep_13360 dev start stop step time st
          = (.error .rangeError, st))
    ∧ ((conf < 1 ∨ conf > m.NCONFS) →
      saveConfFlow m dev conf channel st = (.error .rangeError, st))
    ∧ (checkConf m conf = .ok () → (channel < 1 ∨ channel > m.NCHANNELS) →
      saveConfFlow m dev conf channel st = (.error .rangeError, powerOFF dev st)) := by
  refine ⟨setVoltage_range_unchanged, setCurrent_range_unchanged,
    readVoltage_range_unchanged, readCurrent_range_unchanged,
    runningVoltage_range_unchanged, runningCurrent_range_unchanged,
    ?_, ?_, ?_, ?_, ?_, ?_, rfl, rfl, ?_, ?_, ?_, ?_⟩
  · intro h
    rcases checkConf_valid_or m conf with hc | hc
    · rw [recallConf, hc] at h
      simp at h
    · rw [recallConf, hc]
  · intro h
    rcases checkConf_valid_or m conf with hc | hc
    · rw [saveConf, hc] at h
      simp at h
    · rw [saveConf, hc]
  · intro h
    by_cases h3 : channel = 3
    · rw [readCurrent_13320, if_pos h3]
    · rw [readCurrent_13320, if_neg h3] at h ⊢
      exact readCurrent_range_unchanged h
  · intro h
    by_cases h3 : channel = 3
    · rw [runningCurrent_13320, if_pos h3]
    · rw [runningCurrent_13320, if_neg h3] at h ⊢
      exact runningCurrent_range_unchanged h
  · intro h
    by_cases h3 : channel = 3 ∧
        ¬ (mV.PEq (.ofInt 2500) ∨ mV.PEq (.ofInt 3300) ∨ mV.PEq (.ofInt 5000))
    · rw [setVoltage_13320, if_pos h3]
    · rw [setVoltage_13320, if_neg h3] at h ⊢
      exact setVoltage_range_unchanged h
  · intro h
    by_cases hm : ¬ (trackingMode = 0 ∨ trackingMode = 1 ∨ trackingMode = 2)
    · rw [setTracking_13320, if_pos hm]
    · rw [setTracking_13320, if_neg hm] at h
      simp at h
  · intro h
    rcases checkChannel_valid_or m channel with hc | hc
    swap
    · rw [startAutoVoltageStep_13320, hc]
    rcases checkVoltage_valid_or m stop with hv | hv
    swap
    · rw [startAutoVoltageStep_13320, hc, hv]
    rw [startAutoVoltageStep_13320, hc, hv] at h ⊢
    dsimp only at h ⊢
    by_cases hlt : PyFloat.Lt stop step
    · rw [if_pos hlt]
    · rw [if_neg hlt] at h
      simp at h
  · intro h
    rcases checkVoltage_13360_valid_or stop with hv | hv
    swap
    · rw [startAutoVoltageStep_13360, hv]
    rw [startAutoVoltageStep_13360, hv] at h ⊢
    dsimp only at h ⊢
    by_cases hlt : PyFloat.Lt stop step
    · rw [if_pos hlt]
    · rw [if_neg hlt] at h
      simp at h
  · intro hcf
    rw [saveConfFlow, checkConf_invalid hcf]
  · intro hcf hch
    have hrv : readVoltage m dev channel (powerOFF dev st)
        = (.error .rangeError, powerOFF dev st) := by
      rw [readVoltage, checkChannel_invalid hch]
    rw [saveConfFlow, hcf]
    dsimp only
    rw [hrv]

/-- C4 witness: an invalid channel on `setVoltage` writes nothing, and
`saveConfFlow` with a valid slot but invalid channel fails having written
exactly the output-off command. -/
theorem range_errors_precede_wire_io_witness :
    setVoltage Tenma72Base nullDev 5 (.ofInt 100) st0 = (.error .rangeError, st0)
    ∧ saveConfFlow Tenma72Base nullDev 1 2 st0
        = (.error .rangeError, powerOFF nullDev st0) :=
  ⟨(range_errors_precede_wire_io Tenma72Base nullDev st0 5 1 0 (.ofInt 100)
      (.ofInt 0) (.ofInt 0) (.ofInt 0) (.ofInt 0) (.ofInt 0)).1 (by decide),
   (range_errors_precede_wire_io Tenma72Base nullDev st0 2 1 0 (.ofInt 100)
      (.ofInt 0) (.ofInt 0) (.ofInt 0) (.ofInt 0)
      (.ofInt 0)).2.2.2.2.2.2.2.2.2.2.2.2.2.2.2.2.2 (by decide) (by decide)⟩

/-! ## C2 — saveConfFlow wire-command order -/

/-! ## C2 — saveConfFlow wire-command order -/

/-- C2 counterexample: on the generic model with an echoing transport,
`saveConfFlow(1, 1)` succeeds and issues NINE commands — the claimed seven
interleaved with the two verification read-back queries performed by
`setVoltage` and `setCurrent` — so the trace cannot have the claimed
seven-command shape for any payloads. -/
theorem saveConfFlow_not_seven_commands :
    (saveConfFlow Tenma72Base echoDev 1 1 est0).1 = .ok ()
    ∧ (saveConfFlow Tenma72Base echoDev 1 1 est0).2.trace
        = ["OUT0", "VSET1?", "ISET1?", "RCL1", "VSET1:5.00", "VSET1?",
           "ISET1:1.000", "ISET1?", "SAV1"]
    ∧ (saveConfFlow Tenma72Base echoDev 1 1 est0).2.trace.length = 9
    ∧ (saveConfFlow Tenma72Base echoDev 1 1 est0).2.trace
        ≠ ["OUT0", "VSET1?", "ISET1?", "RCL1", "VSET1:5.00",
           "ISET1:1.000", "SAV1"] := by
  decide

/-- C2 (amended): every successful `saveConfFlow(conf, ch)` run on the
generic model issues, in order: `OUT0`, the voltage read, the current
read, `RCL{conf}`, the voltage re-apply followed by its verification
read-back, the current re-apply followed by its verification read-back,
and `SAV{conf}` — and nothing else. -/
theorem saveConfFlow_command_order {σ : Type} (dev : Device σ)
    (conf channel : ℤ) (st st' : TState σ)
    (h : saveConfFlow Tenma72Base dev conf channel st = (.ok (), st')) :
    ∃ v i, st'.trace = st.trace ++
      ["OUT0",
       "VSET" ++ toString channel ++ "?",
       "ISET" ++ toString channel ++ "?",
       "RCL" ++ toString conf,
       "VSET" ++ toString channel ++ ":" ++ v,
       "VSET" ++ toString channel ++ "?",
       "ISET" ++ toString channel ++ ":" ++ i,
       "ISET" ++ toString channel ++ "?",
       "SAV" ++ toString conf] := by
  rcases checkConf_valid_or Tenma72Base conf with hcf | hcf
  swap
  · rw [saveConfFlow, hcf] at h
    simp at h
  rw [saveConfFlow, hcf] at h
  dsimp only at h
  rcases hrv : readVoltage Tenma72Base dev channel (powerOFF dev st) with ⟨res1, st2⟩
  rw [hrv] at h
  rcases res1 with e | volt
  · simp at h
  dsimp only at h
  rcases hrc : readCurrent Tenma72Base dev channel st2 with ⟨res2, st3⟩
  rw [hrc] at h
  rcases res2 with e | curr
  · simp at h
  dsimp only at h
  rcases hrcl : recallConf Tenma72Base dev conf st3 with ⟨res3, st4⟩
  rw [hrcl] at h
  rcases res3 with e | u3
  · simp at h
  dsimp only at h
  rcases hsv : setVoltage Tenma72Base dev channel (volt.mul (.ofInt 1000)) st4
    with ⟨res4, st5⟩
  rw [hsv] at h
  rcases res4 with e | q4
  · simp at h
  dsimp only at h
  rcases hsc : setCurrent Tenma72Base dev channel (curr.mul (.ofInt 1000)) st5
    with ⟨res5, st6⟩
  rw [hsc] at h
  rcases res5 with e | q5
  · simp at h
  dsimp only at h
  refine ⟨formatFixed 2 ((volt.mul (.ofInt 1000)).divInt 1000),
          formatFixed 3 ((curr.mul (.ofInt 1000)).divInt 1000), ?_⟩
  rw [saveConf_ok h, setCurrent_ok hsc, setVoltage_ok hsv, recallConf_ok hrcl,
    (readCurrent_ok hrc).2, (readVoltage_ok hrv).2]
  show (powerOFF dev st).trace ++ _ ++ _ ++ _ ++ _ ++ _ ++ _ = _
  rw [show (powerOFF dev st).trace = st.trace ++ ["OUT0"] from rfl]
  simp

/-- C2 witness: the successful echo-device run, with its two read-back
payloads. -/
theorem saveConfFlow_command_order_witness :
    ∃ v i, (saveConfFlow Tenma72Base echoDev 1 1 est0).2.trace = est0.trace ++
      ["OUT0", "VSET" ++ toString (1 : ℤ) ++ "?", "ISET" ++ toString (1 : ℤ) ++ "?",
       "RCL" ++ toString (1 : ℤ), "VSET" ++ toString (1 : ℤ) ++ ":" ++ v,
       "VSET" ++ toString (1 : ℤ) ++ "?", "ISET" ++ toString (1 : ℤ) ++ ":" ++ i,
       "ISET" ++ toString (1 : ℤ) ++ "?", "SAV" ++ toString (1 : ℤ)] :=
  saveConfFlow_command_order echoDev 1 1 est0
    (saveConfFlow Tenma72Base echoDev 1 1 est0).2 (by decide)

/-! ## C3 — model resolution -/

/-- The deterministic registration order in which the resolver scans the
variants: class-creation order of `tenma_72_devices.py`, each class
followed by its own subclasses (`Tenma72_13330` right after its parent
`Tenma72_13320`). -/
def registrationOrder : List TenmaModel :=
  [.T72_2540, .T72_2535, .T72_2545, .T72_2550, .T72_2930, .T72_2705,
   .T72_2940, .T72_13320, .T72_13330]

/-- The recursive subclass scan visits exactly the registration order. -/
theorem findSubclasses_eq_registrationOrder :
    findSubclassesRecursively .base = registrationOrder := by decide

/-- Every registered variant is in the scan list. -/
theorem mem_registrationOrder (cls : TenmaModel) : cls ∈ registrationOrder := by
  cases cls <;> decide

/-- The intended selection semantics of lines 57-63: if some registered
variant's match string occurs in the identity response, the first matching
variant in registration order is chosen; if none matches, the
`Tenma72_2545` default is.  This is what the claim describes and what the
module documents — supporting the verdict that the staged `NameError`
(below) is a slip, not the intent. -/
theorem resolverSelection_first_match_or_default (ver : String) :
    (∀ cls : TenmaModel, modelMatches cls ver = true →
      ∃ chosen, resolverSelection ver = chosen
        ∧ modelMatches chosen ver = true
        ∧ registrationOrder.find? (fun c => modelMatches c ver) = some chosen)
    ∧ ((∀ cls : TenmaModel, modelMatches cls ver = false) →
      resolverSelection ver = .T72_2545) := by
  constructor
  · intro cls hcls
    cases hf : registrationOrder.find? (fun c => modelMatches c ver) with
    | none =>
      rw [List.find?_eq_none] at hf
      exact absurd hcls (by simpa using hf cls (mem_registrationOrder cls))
    | some chosen =>
      refine ⟨chosen, ?_, by simpa using List.find?_some hf, rfl⟩
      rw [resolverSelection, findSubclasses_eq_registrationOrder, hf]
  · intro hall
    have hf : registrationOrder.find? (fun c => modelMatches c ver) = none := by
      rw [List.find?_eq_none]
      intro x _
      simp [hall x]
    rw [resolverSelection, findSubclasses_eq_registrationOrder, hf]

/-- Concrete runs of the intended selection: a 72-2550 identity string
selects the 72-2550 variant; an unrecognized identity string selects the
72-2545 default. -/
theorem resolverSelection_concrete_runs :
    (∃ chosen, resolverSelection "TENMA 72-2550 V2.1" = chosen
      ∧ modelMatches chosen "TENMA 72-2550 V2.1" = true
      ∧ registrationOrder.find?
          (fun c => modelMatches c "TENMA 72-2550 V2.1") = some chosen)
    ∧ resolverSelection "some unknown unit" = .T72_2545 :=
  ⟨(resolverSelection_first_match_or_default "TENMA 72-2550 V2.1").1 .T72_2550
     (by decide),
   (resolverSelection_first_match_or_default "some unknown unit").2
     (by intro cls; cases cls <;> decide)⟩

/-- C3: the resolver as staged raises `NameError` on every identity
response (evaluated here both at a matching and at a non-matching one):
`tenmaDcLib.py` has no import statements, so the module-global
`Tenma72Base` used by its first statement is unbound and the claimed
selection ("selects that variant ... selects the documented default
variant and does not raise") is never reached.  The claim matches the
documented intent (see `resolverSelection_first_match_or_default`); the
missing import is a code bug. -/
theorem resolver_raises_name_error :
    instantiate_tenma_class_from_device_response "TENMA 72-2550 V2.1"
      = .error (.nameError "Tenma72Base")
    ∧ instantiate_tenma_class_from_device_response "some unknown unit"
      = .error (.nameError "Tenma72Base") := by
  decide

/-! ## C8 — channel-3 restrictions of the 72-13320 -/

/-- C8: on the 72-13320, reading the set or running current of channel 3
always fails with a range error, and `setVoltage` on channel 3 fails with
a range error for every value outside the presets 2500/3300/5000 mV while
the presets themselves are never rejected by a range error. -/
theorem t13320_channel3_restrictions {σ : Type} (dev : Device σ) (st : TState σ) :
    readCurrent_13320 Tenma72_13320 dev 3 st = (.error .rangeError, st)
    ∧ runningCurrent_13320 Tenma72_13320 dev 3 st = (.error .rangeError, st)
    ∧ (∀ mV : PyFloat,
        ¬ (mV.PEq (.ofInt 2500) ∨ mV.PEq (.ofInt 3300) ∨ mV.PEq (.ofInt 5000)) →
        setVoltage_13320 Tenma72_13320 dev 3 mV st = (.error .rangeError, st))
    ∧ (∀ mV : ℤ, (mV = 2500 ∨ mV = 3300 ∨ mV = 5000) →
        (setVoltage_13320 Tenma72_13320 dev 3 (.ofInt mV) st).1 ≠ .error .rangeError) := by
  refine ⟨by rw [readCurrent_13320, if_pos rfl],
          by rw [runningCurrent_13320, if_pos rfl], ?_, ?_⟩
  · intro mV h
    rw [setVoltage_13320, if_pos ⟨rfl, h⟩]
  · have hc : checkChannel Tenma72_13320 3 = .ok () :=
      checkChannel_valid (by omega) (by show (3 : ℤ) ≤ 3; omega)
    have hgen : ∀ mv : ℤ, 0 ≤ mv → mv ≤ 30000 →
        (setVoltage Tenma72_13320 dev 3 (.ofInt mv) st).1 ≠ .error .rangeError := by
      intro mv hm1 hm2
      have hv : checkVoltage Tenma72_13320 (.ofInt mv) = .ok () :=
        checkVoltage_valid (by rw [pyInt_ofInt]; exact hm1)
          (by rw [pyInt_ofInt]; exact hm2)
      rcases setVoltage_after_checks dev st hc hv with h | h | ⟨q, h⟩ <;> rw [h] <;> simp
    intro mV h
    rcases h with h | h | h <;> subst h <;>
      rw [setVoltage_13320, if_neg (by decide)] <;>
      exact hgen _ (by omega) (by omega)

/-- C8 witness: 2400 mV is rejected on channel 3, 2500 mV is not. -/
theorem t13320_channel3_restrictions_witness :
    readCurrent_13320 Tenma72_13320 nullDev 3 st0 = (.error .rangeError, st0)
    ∧ runningCurrent_13320 Tenma72_13320 nullDev 3 st0 = (.error .rangeError, st0)
    ∧ setVoltage_13320 Tenma72_13320 nullDev 3 (.ofInt 2400) st0
        = (.error .rangeError, st0)
    ∧ (setVoltage_13320 Tenma72_13320 nullDev 3 (.ofInt 2500) st0).1
        ≠ .error .rangeError :=
  ⟨(t13320_channel3_restrictions nullDev st0).1,
   (t13320_channel3_restrictions nullDev st0).2.1,
   (t13320_channel3_restrictions nullDev st0).2.2.1 (.ofInt 2400) (by decide),
   (t13320_channel3_restrictions nullDev st0).2.2.2 2500 (by decide)⟩

/-! ## C9 — auto-step validation -/

/-- C9: `startAutoVoltageStep` (both the 72-13320 and the 72-13360
variant) fails with a range error and writes nothing whenever the step
exceeds the stop value and the stop value is within the model's voltage
range. -/
theorem autostep_step_exceeds_stop {σ : Type} (dev : Device σ) (st : TState σ)
    (channel : ℤ) (start stop step time : PyFloat)
    (hlt : PyFloat.Lt stop step) :
    (0 ≤ pyInt stop → pyInt stop ≤ Tenma72_13320.MAX_MV →
      startAutoVoltageStep_13320 Tenma72_13320 dev channel start stop step time st
        = (.error .rangeError, st))
    ∧ (0 ≤ pyInt stop → pyInt stop ≤ MAX_MV_13360 →
      startAutoVoltageStep_13360 dev start stop step time st
        = (.error .rangeError, st)) := by
  constructor
  · intro h1 h2
    rcases checkChannel_valid_or Tenma72_13320 channel with hc | hc
    · rw [startAutoVoltageStep_13320, hc, checkVoltage_valid h1 h2, if_pos hlt]
    · rw [startAutoVoltageStep_13320, hc]
  · intro h1 h2
    have hv : checkVoltage_13360 stop = .ok () := by
      rw [checkVoltage_13360, if_neg (by omega)]
    rw [startAutoVoltageStep_13360, hv, if_pos hlt]

/-- C9 witness: step 2000 mV > stop 1000 mV, nothing written. -/
theorem autostep_step_exceeds_stop_witness :
    startAutoVoltageStep_13320 Tenma72_13320 nullDev 1
      (.ofInt 0) (.ofInt 1000) (.ofInt 2000) (.ofInt 1) st0
      = (.error .rangeError, st0)
    ∧ startAutoVoltageStep_13360 nullDev
      (.ofInt 0) (.ofInt 1000) (.ofInt 2000) (.ofInt 1) st0
      = (.error .rangeError, st0) :=
  ⟨(autostep_step_exceeds_stop nullDev st0 1 (.ofInt 0) (.ofInt 1000)
      (.ofInt 2000) (.ofInt 1) (by decide)).1 (by decide) (by decide),
   (autostep_step_exceeds_stop nullDev st0 1 (.ofInt 0) (.ofInt 1000)
      (.ofInt 2000) (.ofInt 1) (by decide)).2 (by decide) (by decide)⟩

/-! ## C10 — getStatus is not total over empty responses -/

/-- C10: on every model's `getStatus`, when the device replies nothing to
`STATUS?` (and nothing else is buffered), the unguarded `statusBytes[0]`
fails with an index error rather than any of the driver's typed errors. -/
theorem getStatus_empty_reply_unguarded {σ : Type} (dev : Device σ) (ds : σ)
    (tr : List String) (h : (dev.step ds "STATUS?").2 = "") :
    (getStatus dev ⟨ds, tr, ""⟩).1 = .error .indexError
    ∧ (getStatus_13320 dev ⟨ds, tr, ""⟩).1 = .error .indexError
    ∧ (getStatus_13360 dev ⟨ds, tr, ""⟩).1 = .error .indexError := by
  refine ⟨?_, ?_, ?_⟩ <;>
    simp [getStatus, getStatus_13320, getStatus_13360, sendCommand, readBytes, h]

/-- C10 witness: the silent device. -/
theorem getStatus_empty_reply_unguarded_witness :
    (getStatus nullDev st0).1 = .error .indexError
    ∧ (getStatus_13320 nullDev st0).1 = .error .indexError
    ∧ (getStatus_13360 nullDev st0).1 = .error .indexError :=
  getStatus_empty_reply_unguarded nullDev () [] (by decide)

/-- C7 witness: slot 6 on the generic model (5 slots) and slot 1 on the
72-13320 (0 slots) are both rejected with nothing written. -/
theorem conf_slot_bounds_witness :
    recallConf Tenma72Base nullDev 6 st0 = (.error .rangeError, st0)
    ∧ saveConf Tenma72Base nullDev 6 st0 = (.error .rangeError, st0)
    ∧ recallConf Tenma72_13320 nullDev 1 st0 = (.error .rangeError, st0)
    ∧ saveConf Tenma72_13320 nullDev 1 st0 = (.error .rangeError, st0) :=
  ⟨((conf_slot_bounds Tenma72Base nullDev st0).1 6 (by decide)).1,
   ((conf_slot_bounds Tenma72Base nullDev st0).1 6 (by decide)).2,
   ((conf_slot_bounds Tenma72Base nullDev st0).2 1).1,
   ((conf_slot_bounds Tenma72Base nullDev st0).2 1).2.1⟩

end TenmaSerial
